import Mathlib

/-!
# SSH JSON logger (`src/output-json-ssh.c`)

A shallow embedding of the condition function `JsonSshCondition`, the renderer
`JsonSshLogJSON` and the logger `JsonSshLogger`, followed by the properties of the
once-only emission gate.

Every function returns, next to its C return value, the trace of the lock operations,
accesses to the flow's protocol state and sink calls it performs, in program order.
-/

namespace OutputJsonSsh

/-! ## Data model -/

/-- Constants the file uses but does not declare (`app-layer-protos.h`,
`app-layer-ssh.h`): they are parameters of the embedding. -/
structure Consts where
  /-- the protocol identifier compared with `FlowGetAppProtocol` -/
  ALPROTO_SSH : Nat
  /-- the bit mask or-ed into `cli_hdr.flags` once the state is logged -/
  SSH_FLAG_STATE_LOGGED : Nat

/-- The content of a C string: its bytes up to the terminator. The banner strings are
`uint8_t *` filled from the wire, so any byte sequence can occur. -/
abbrev Bytes := List Nat

/-- The fields of `SshHeader` the file touches. The two strings are C pointers:
`none` is `NULL`. -/
structure SshHeader where
  flags : Nat
  proto_version : Option Bytes
  software_version : Option Bytes

/-- The per-flow SSH state: the header of each direction. -/
structure SshState where
  cli_hdr : SshHeader
  srv_hdr : SshHeader

/-- What the file reads of a flow: the detected application protocol
(`FlowGetAppProtocol`) and the application state (`FlowGetAppState`), `none` for `NULL`. -/
structure Flow where
  alproto : Nat
  alstate : Option SshState

/-- What the file reads of a packet: `p->flow` (`none` for `NULL`) and `PKT_IS_TCP(p)`. -/
structure Packet where
  flow : Option Flow
  tcp : Bool

/-- The JSON values the file builds: strings and objects. A string holds the bytes it
was made from; an object is the list of its members in insertion order, with distinct
keys. -/
inductive Json where
  | str (s : Bytes)
  | obj (members : List (String × Json))

/-- The fields of the SSH state the file reads or writes. -/
inductive Field where
  | cliFlags
  | cliProtoVersion
  | cliSoftwareVersion
  | srvProtoVersion
  | srvSoftwareVersion
  deriving DecidableEq

/-- The seven calls of `json_object_set_new` in the file, by the member they set. -/
inductive SetCall where
  /-- line 73: `proto_version` of `cjs` -/
  | cliProtoVersion
  /-- line 76: `software_version` of `cjs` -/
  | cliSoftwareVersion
  /-- line 79: `client` of `tjs` -/
  | client
  /-- line 83: `proto_version` of `sjs` -/
  | srvProtoVersion
  /-- line 86: `software_version` of `sjs` -/
  | srvSoftwareVersion
  /-- line 89: `server` of `tjs` -/
  | server
  /-- line 132: `ssh` of `js` -/
  | ssh
  deriving DecidableEq

/-- Observable steps of one call, in program order. -/
inductive Ev where
  /-- `FLOWLOCK_RDLOCK(p->flow)` -/
  | rdlock
  /-- `FLOWLOCK_WRLOCK(p->flow)` -/
  | wrlock
  /-- `FLOWLOCK_UNLOCK(p->flow)` -/
  | unlock
  /-- `FlowGetAppProtocol(p->flow)` -/
  | getAppProtocol
  /-- `FlowGetAppState(p->flow)` -/
  | getAppState
  /-- a read of a field of the SSH state -/
  | read (f : Field)
  /-- a write of a field of the SSH state -/
  | write (f : Field)
  /-- `OutputJSONBuffer(js, ...)`: the event handed to the sink and what the sink returned -/
  | output (js : Json) (accepted : Bool)

/-- Lock operations among the steps. -/
def Ev.isLockOp : Ev → Bool
  | .rdlock => true
  | .wrlock => true
  | .unlock => true
  | _ => false

/-- Writes to the protocol state among the steps. -/
def Ev.isWrite : Ev → Bool
  | .write _ => true
  | _ => false

/-- The sink calls of a trace, in order: each event handed to the sink with what the
sink returned. -/
def sinkCalls : List Ev → List (Json × Bool)
  | [] => []
  | .output js accepted :: t => (js, accepted) :: sinkCalls t
  | _ :: t => sinkCalls t

/-- Outcomes of the calls into collaborators during one invocation of the logger. -/
structure Env where
  /-- `CreateJSONHeader((Packet *)p, 1, "ssh")`: the members of the header object, or
  `none` for `NULL` -/
  CreateJSONHeader : Packet → Option (List (String × Json))
  /-- whether `json_object()` in `JsonSshLogger` returns an object (`tjs`) -/
  json_object_tjs : Bool
  /-- whether the first `json_object()` in `JsonSshLogJSON` returns an object (`cjs`) -/
  json_object_cjs : Bool
  /-- whether the second `json_object()` in `JsonSshLogJSON` returns an object (`sjs`) -/
  json_object_sjs : Bool
  /-- whether `json_string(value)`, at the call that renders the given field, returns a
  string: the value is valid UTF-8 and the allocation succeeds -/
  json_string_ok : Field → Bytes → Bool
  /-- whether the given call of `json_object_set_new`, made with an object and a non-NULL
  value, succeeds (it allocates) -/
  json_object_set_new_ok : SetCall → Bool
  /-- what `OutputJSONBuffer` returns for an event: `true` when the sink accepted it -/
  OutputJSONBuffer : Json → Bool

/-- Result of `JsonSshCondition`: `ret` is `TRUE`/`FALSE`. -/
structure CondResult where
  ret : Bool
  trace : List Ev

/-- Result of `JsonSshLogger`: the returned integer, `p->flow` after the call and the
trace. -/
structure LogResult where
  ret : Int
  flow : Option Flow
  trace : List Ev

/-! ## The jansson calls the file makes -/

/-- `json_string(value)`: `NULL` for a `NULL` argument, `NULL` when the bytes are not
valid UTF-8 or the allocation fails (`ok value` is false), else a new JSON string holding
the same bytes. -/
def json_string (ok : Bytes → Bool) : Option Bytes → Option Json
  | none => none
  | some s => if ok s then some (Json.str s) else none

/-- Insert or replace the member `key` of an object's member list. -/
def setMember (key : String) (value : Json) : List (String × Json) → List (String × Json)
  | [] => [(key, value)]
  | (k, v) :: rest =>
    if k = key then (key, value) :: rest else (k, v) :: setMember key value rest

/-- `json_object_set_new(obj, key, value)`: sets the member `key` of `obj` to `value`;
with a `NULL` value, when `obj` is not an object, or when its allocation fails (`ok` is
false), it returns an error and `obj` is unchanged. The file never looks at the result. -/
def json_object_set_new (ok : Bool) (obj : Json) (key : String) (value : Option Json) :
    Json :=
  match value, obj with
  | some v, Json.obj members => if ok then Json.obj (setMember key v members) else obj
  | _, o => o

/-- `json_object_get(obj, key)`: the member `key` of an object, `none` when there is none. -/
def json_object_get (obj : Json) (key : String) : Option Json :=
  match obj with
  | Json.obj members => members.lookup key
  | _ => none

/-- Follow a path of keys down nested objects. -/
def jsonPath : Json → List String → Option Json
  | js, [] => some js
  | js, k :: ks =>
    match json_object_get js k with
    | none => none
    | some v => jsonPath v ks

/-! ## `JsonSshCondition` (lines 281-317) -/

/-- The test `flags & SSH_FLAG_STATE_LOGGED` of the C code: nonzero is true. -/
def stateLogged (c : Consts) (flags : Nat) : Bool :=
  flags &&& c.SSH_FLAG_STATE_LOGGED != 0

/-- Condition function of the SSH logger: log now? Each `goto dontlog` is the unlock
followed by `return FALSE`. -/
def JsonSshCondition (c : Consts) (p : Packet) : CondResult :=
  match p.flow with
  | none => { ret := false, trace := [] }
  | some f =>
    if p.tcp = false then { ret := false, trace := [] } else
    let t := [Ev.rdlock]
    let t := t ++ [Ev.getAppProtocol]
    if f.alproto ≠ c.ALPROTO_SSH then { ret := false, trace := t ++ [Ev.unlock] } else
    let t := t ++ [Ev.getAppState]
    match f.alstate with
    | none => { ret := false, trace := t ++ [Ev.unlock] }
    | some ssh_state =>
      let t := t ++ [Ev.read Field.cliFlags]
      if stateLogged c ssh_state.cli_hdr.flags then
        { ret := false, trace := t ++ [Ev.unlock] }
      else
      let t := t ++ [Ev.read Field.cliSoftwareVersion]
      if ssh_state.cli_hdr.software_version = none then
        { ret := false, trace := t ++ [Ev.unlock] }
      else
      let t := t ++ [Ev.read Field.srvSoftwareVersion]
      if ssh_state.srv_hdr.software_version = none then
        { ret := false, trace := t ++ [Ev.unlock] }
      else
        { ret := true, trace := t ++ [Ev.unlock] }

/-! ## `JsonSshLogJSON` (lines 69-91) -/

/-- Renders the SSH state into `tjs`. Returns the updated `tjs` and the reads of the
state it made. The members of `cjs` and `sjs` are set only when the object was
allocated; `json_object_set_new(tjs, key, NULL)` leaves `tjs` as it was. No result of
`json_string` or `json_object_set_new` is looked at. -/
def JsonSshLogJSON (env : Env) (tjs : Json) (ssh_state : SshState) : Json × List Ev :=
  let c0 : Option Json × List Ev :=
    if env.json_object_cjs then
      let cjs := Json.obj []
      let cjs := json_object_set_new (env.json_object_set_new_ok SetCall.cliProtoVersion) cjs
        "proto_version"
        (json_string (env.json_string_ok Field.cliProtoVersion) ssh_state.cli_hdr.proto_version)
      let cjs := json_object_set_new (env.json_object_set_new_ok SetCall.cliSoftwareVersion) cjs
        "software_version"
        (json_string (env.json_string_ok Field.cliSoftwareVersion)
          ssh_state.cli_hdr.software_version)
      (some cjs, [Ev.read Field.cliProtoVersion, Ev.read Field.cliSoftwareVersion])
    else (none, [])
  let tjs := json_object_set_new (env.json_object_set_new_ok SetCall.client) tjs "client" c0.1
  let s0 : Option Json × List Ev :=
    if env.json_object_sjs then
      let sjs := Json.obj []
      let sjs := json_object_set_new (env.json_object_set_new_ok SetCall.srvProtoVersion) sjs
        "proto_version"
        (json_string (env.json_string_ok Field.srvProtoVersion) ssh_state.srv_hdr.proto_version)
      let sjs := json_object_set_new (env.json_object_set_new_ok SetCall.srvSoftwareVersion) sjs
        "software_version"
        (json_string (env.json_string_ok Field.srvSoftwareVersion)
          ssh_state.srv_hdr.software_version)
      (some sjs, [Ev.read Field.srvProtoVersion, Ev.read Field.srvSoftwareVersion])
    else (none, [])
  let tjs := json_object_set_new (env.json_object_set_new_ok SetCall.server) tjs "server" s0.1
  (tjs, c0.2 ++ s0.2)

/-- The object `cjs` (lines 71-77, from the client header) or `sjs` (lines 81-87, from the
server header) once allocated, as a function of the header and of the calls made for it:
used to state what `JsonSshLogJSON` puts under `client` and `server`. -/
def renderSide (env : Env) (hdr : SshHeader) (fProto fSoftware : Field)
    (cProto cSoftware : SetCall) : Json :=
  json_object_set_new (env.json_object_set_new_ok cSoftware)
    (json_object_set_new (env.json_object_set_new_ok cProto) (Json.obj []) "proto_version"
      (json_string (env.json_string_ok fProto) hdr.proto_version))
    "software_version" (json_string (env.json_string_ok fSoftware) hdr.software_version)

/-! ## `JsonSshLogger` (lines 93-143) -/

/-- The state after `ssh_state->cli_hdr.flags |= SSH_FLAG_STATE_LOGGED`. -/
def markLogged (c : Consts) (ssh_state : SshState) : SshState :=
  { ssh_state with
    cli_hdr := { ssh_state.cli_hdr with
      flags := ssh_state.cli_hdr.flags ||| c.SSH_FLAG_STATE_LOGGED } }

/-- The logger. Each `goto end` is the unlock followed by `return 0`. The result of
`OutputJSONBuffer` is not looked at; the calls that only manage memory
(`MemBufferReset`, `free`, `json_object_clear`, `json_decref`) leave no step. -/
def JsonSshLogger (c : Consts) (env : Env) (p : Packet) : LogResult :=
  match p.flow with
  | none => { ret := 0, flow := none, trace := [] }
  | some f =>
    let t := [Ev.wrlock]
    let t := t ++ [Ev.getAppProtocol]
    if f.alproto ≠ c.ALPROTO_SSH then
      { ret := 0, flow := some f, trace := t ++ [Ev.unlock] }
    else
    let t := t ++ [Ev.getAppState]
    match f.alstate with
    | none => { ret := 0, flow := some f, trace := t ++ [Ev.unlock] }
    | some ssh_state =>
      let t := t ++ [Ev.read Field.cliSoftwareVersion]
      if ssh_state.cli_hdr.software_version = none then
        { ret := 0, flow := some f, trace := t ++ [Ev.unlock] }
      else
      let t := t ++ [Ev.read Field.srvSoftwareVersion]
      if ssh_state.srv_hdr.software_version = none then
        { ret := 0, flow := some f, trace := t ++ [Ev.unlock] }
      else
      match env.CreateJSONHeader p with
      | none => { ret := 0, flow := some f, trace := t ++ [Ev.unlock] }
      | some header =>
        let js := Json.obj header
        if env.json_object_tjs = false then
          { ret := 0, flow := some f, trace := t ++ [Ev.unlock] }
        else
        let tjs := Json.obj []
        let r := JsonSshLogJSON env tjs ssh_state
        let t := t ++ r.2
        let js := json_object_set_new (env.json_object_set_new_ok SetCall.ssh) js "ssh"
          (some r.1)
        let t := t ++ [Ev.output js (env.OutputJSONBuffer js)]
        let t := t ++ [Ev.read Field.cliFlags, Ev.write Field.cliFlags]
        { ret := 0
          flow := some { f with alstate := some (markLogged c ssh_state) }
          trace := t ++ [Ev.unlock] }

/-! ## Invocations by the output framework -/

/-- One packet of a flow reaching the logger: `PKT_IS_TCP` of the packet and the outcomes
of the collaborators during the invocation. -/
structure Invocation where
  tcp : Bool
  env : Env

/-- Result of one invocation: what the gate returned, the flow afterwards and the trace. -/
structure OrchResult where
  gate : Bool
  flow : Flow
  trace : List Ev

/-- Modelled from the spec: the caller of the two registered functions (the packet
output framework) is not in this file. One invocation on a packet of the flow evaluates
`JsonSshCondition` and runs `JsonSshLogger` only if it returned TRUE. -/
def orchestrate (c : Consts) (i : Invocation) (f : Flow) : OrchResult :=
  let p : Packet := { flow := some f, tcp := i.tcp }
  let g := JsonSshCondition c p
  if g.ret then
    let r := JsonSshLogger c i.env p
    { gate := true
      flow := match r.flow with
        | some f1 => f1
        | none => f
      trace := g.trace ++ r.trace }
  else
    { gate := false, flow := f, trace := g.trace }

/-- Result of a sequence of invocations: the gate results in order, the flow at the end
and the concatenated trace. -/
structure SeqResult where
  gates : List Bool
  flow : Flow
  trace : List Ev

/-- Sequential invocations on one flow, one after the other. -/
def orchestrateSeq (c : Consts) : List Invocation → Flow → SeqResult
  | [], f => { gates := [], flow := f, trace := [] }
  | i :: rest, f =>
    let r := orchestrate c i f
    let s := orchestrateSeq c rest r.flow
    { gates := r.gate :: s.gates, flow := s.flow, trace := r.trace ++ s.trace }

/-! ## Concurrent workers on one flow -/

/-- Where a worker stands in its single invocation: before the gate, after a gate that
returned TRUE and before the logger, or finished. -/
inductive Pc where
  | start
  | gated
  | finished

/-- A worker: its invocation and where it stands. -/
structure Worker where
  inv : Invocation
  pc : Pc

/-- The shared flow, the workers and the events the sink has received so far. -/
structure World where
  flow : Flow
  workers : List Worker
  sink : List Json

/-- Modelled from the spec: one scheduling step of worker `k`. The flow lock makes each of
`JsonSshCondition` (read lock) and `JsonSshLogger` (write lock) one atomic step on the
shared flow; between the two steps of a worker the lock is free and other workers may
run. -/
def stepWorker (c : Consts) (w : World) (k : Nat) : World :=
  match w.workers.get? k with
  | none => w
  | some wk =>
    let p : Packet := { flow := some w.flow, tcp := wk.inv.tcp }
    match wk.pc with
    | Pc.start =>
      let g := JsonSshCondition c p
      { w with workers :=
          w.workers.set k { wk with pc := if g.ret then Pc.gated else Pc.finished } }
    | Pc.gated =>
      let r := JsonSshLogger c wk.inv.env p
      { flow := match r.flow with
          | some f1 => f1
          | none => w.flow
        workers := w.workers.set k { wk with pc := Pc.finished }
        sink := w.sink ++ (sinkCalls r.trace).map Prod.fst }
    | Pc.finished => w

/-- Run a schedule: the list of the workers that take the successive steps. -/
def runSchedule (c : Consts) : World → List Nat → World
  | w, [] => w
  | w, k :: ks => runSchedule c (stepWorker c w k) ks

/-! ## Concrete inputs -/

/-- A choice of the two constants for the concrete evaluations below. -/
def exConsts : Consts := { ALPROTO_SSH := 5, SSH_FLAG_STATE_LOGGED := 4 }

/-- The bytes of `2.0`. -/
def v20 : Bytes := [50, 46, 48]

/-- The bytes of `libssh`. -/
def libssh : Bytes := [108, 105, 98, 115, 115, 104]

/-- The bytes of `dropbear`. -/
def dropbear : Bytes := [100, 114, 111, 112, 98, 101, 97, 114]

/-- The bytes `lib`, 0xff, `ssh`: not valid UTF-8. -/
def libFFssh : Bytes := [108, 105, 98, 255, 115, 115, 104]

/-- Collaborators that all succeed: an empty header object, every allocation succeeds,
every string is accepted, the sink accepts. -/
def envOk : Env :=
  { CreateJSONHeader := fun _ => some []
    json_object_tjs := true
    json_object_cjs := true
    json_object_sjs := true
    json_string_ok := fun _ _ => true
    json_object_set_new_ok := fun _ => true
    OutputJSONBuffer := fun _ => true }

/-- A complete SSH state (both banners parsed) whose client flags word is `flags`. -/
def completeState (flags : Nat) : SshState :=
  { cli_hdr := { flags := flags, proto_version := some v20, software_version := some libssh }
    srv_hdr := { flags := 0, proto_version := some v20, software_version := some dropbear } }

/-- An SSH flow holding the complete state. -/
def completeFlow (c : Consts) (flags : Nat) : Flow :=
  { alproto := c.ALPROTO_SSH, alstate := some (completeState flags) }

/-- The ssh object rendered from the complete state. -/
def completeSsh : Json :=
  Json.obj
    [("client", Json.obj [("proto_version", Json.str v20),
        ("software_version", Json.str libssh)]),
     ("server", Json.obj [("proto_version", Json.str v20),
        ("software_version", Json.str dropbear)])]

/-- The sink rejects every event; the other collaborators succeed. -/
def envSinkFails : Env := { envOk with OutputJSONBuffer := fun _ => false }

/-- The header is created but `json_object()` in the logger returns `NULL`. -/
def envNoTjs : Env := { envOk with json_object_tjs := false }

/-- The first `json_object()` of the renderer returns `NULL`. -/
def envNoCjs : Env := { envOk with json_object_cjs := false }

/-- A state with both software versions set and the client protocol version `NULL`. -/
def noProtoState : SshState :=
  { cli_hdr := { flags := 0, proto_version := none, software_version := some libssh }
    srv_hdr := { flags := 0, proto_version := some v20, software_version := some dropbear } }

/-- Every allocation succeeds and `json_string` accepts the strings whose bytes are all
below 128 (ASCII, always valid UTF-8) and rejects the others, as it does a byte 0xff. -/
def envStrict : Env :=
  { envOk with json_string_ok := fun _ s => s.all (fun b => decide (b < 128)) }

/-- A state with the four strings present whose client software version is not valid
UTF-8. -/
def badUtf8State : SshState :=
  { cli_hdr := { flags := 0, proto_version := some v20, software_version := some libFFssh }
    srv_hdr := { flags := 0, proto_version := some v20, software_version := some dropbear } }

/-- Two workers about to process a packet each of the same complete, unlogged flow. -/
def raceWorld (c : Consts) : World :=
  { flow := completeFlow c 0
    workers := [{ inv := ⟨true, envOk⟩, pc := Pc.start }, { inv := ⟨true, envOk⟩, pc := Pc.start }]
    sink := [] }

/-! ## Auxiliary facts -/

theorem stateLogged_or_mask (c : Consts) (flags : Nat) (hmask : c.SSH_FLAG_STATE_LOGGED ≠ 0) :
    stateLogged c (flags ||| c.SSH_FLAG_STATE_LOGGED) = true := by
  have h : (flags ||| c.SSH_FLAG_STATE_LOGGED) &&& c.SSH_FLAG_STATE_LOGGED
      = c.SSH_FLAG_STATE_LOGGED := by
    apply Nat.eq_of_testBit_eq
    intro n
    simp only [Nat.testBit_and, Nat.testBit_or]
    cases flags.testBit n <;> cases c.SSH_FLAG_STATE_LOGGED.testBit n <;> rfl
  simp [stateLogged, h, hmask]

theorem testBit_or_mask (mask flags n : Nat) (h : mask.testBit n = false) :
    (flags ||| mask).testBit n = flags.testBit n := by
  simp [Nat.testBit_or, h]

theorem lookup_setMember_self (key : String) (value : Json) (members : List (String × Json)) :
    (setMember key value members).lookup key = some value := by
  induction members with
  | nil => simp [setMember, List.lookup]
  | cons kv rest ih =>
    rcases kv with ⟨k, v⟩
    by_cases h : k = key
    · simp [setMember, h, List.lookup]
    · have h2 : (key == k) = false := by
        simp only [beq_eq_false_iff_ne]
        exact fun e => h e.symm
      simp [setMember, h, List.lookup, h2, ih]

theorem lookup_setMember_ne (key other : String) (value : Json)
    (members : List (String × Json)) (hne : other ≠ key) :
    (setMember key value members).lookup other = members.lookup other := by
  induction members with
  | nil =>
    have h2 : (other == key) = false := by simpa using hne
    simp [setMember, List.lookup, h2]
  | cons kv rest ih =>
    rcases kv with ⟨k, v⟩
    by_cases h : k = key
    · have h2 : (other == key) = false := by simpa using hne
      subst h
      simp [setMember, List.lookup, h2]
    · cases h3 : (other == k) <;> simp [setMember, h, List.lookup, h3, ih]


theorem sinkCalls_append (a b : List Ev) : sinkCalls (a ++ b) = sinkCalls a ++ sinkCalls b := by
  induction a with
  | nil => rfl
  | cons e t ih => cases e <;> simp [sinkCalls, ih]

theorem sinkCalls_condition (c : Consts) (p : Packet) :
    sinkCalls (JsonSshCondition c p).trace = [] := by
  rcases p with ⟨_ | ⟨ap, _ | st⟩, tcp⟩
  · simp [JsonSshCondition, sinkCalls]
  · cases tcp <;> by_cases h : ap = c.ALPROTO_SSH <;> simp [JsonSshCondition, sinkCalls, h]
  · cases tcp <;> by_cases h : ap = c.ALPROTO_SSH <;>
      cases hl : stateLogged c st.cli_hdr.flags <;>
      by_cases h1 : st.cli_hdr.software_version = none <;>
      by_cases h2 : st.srv_hdr.software_version = none <;>
      simp [JsonSshCondition, sinkCalls, h, hl, h1, h2]

theorem condition_false_of_logged (c : Consts) (tcp : Bool) (f : Flow) (st : SshState)
    (hst : f.alstate = some st) (hl : stateLogged c st.cli_hdr.flags = true) :
    (JsonSshCondition c { flow := some f, tcp := tcp }).ret = false := by
  rcases f with ⟨ap, s⟩
  simp only at hst
  subst hst
  cases tcp <;> by_cases h : ap = c.ALPROTO_SSH <;> simp [JsonSshCondition, h, hl]

theorem orchestrate_of_logged (c : Consts) (i : Invocation) (f : Flow) (st : SshState)
    (hst : f.alstate = some st) (hl : stateLogged c st.cli_hdr.flags = true) :
    (orchestrate c i f).gate = false ∧ (orchestrate c i f).flow = f ∧
      sinkCalls (orchestrate c i f).trace = [] := by
  have hg := condition_false_of_logged c i.tcp f st hst hl
  simp [orchestrate, hg, sinkCalls_condition]

theorem sinkCalls_logJSON (env : Env) (tjs : Json) (st : SshState) :
    sinkCalls (JsonSshLogJSON env tjs st).2 = [] := by
  cases h5 : env.json_object_cjs <;> cases h6 : env.json_object_sjs <;>
    simp [JsonSshLogJSON, sinkCalls, h5, h6]

theorem logJSON_no_write (env : Env) (tjs : Json) (st : SshState) :
    ∀ e ∈ (JsonSshLogJSON env tjs st).2, e.isWrite = false := by
  cases h5 : env.json_object_cjs <;> cases h6 : env.json_object_sjs <;>
    simp [JsonSshLogJSON, Ev.isWrite, h5, h6]

/-- The trace and the flow of the logger on the path that reaches the sink. -/
theorem logger_emits (c : Consts) (env : Env) (p : Packet) (f : Flow) (st : SshState)
    (header : List (String × Json))
    (hp : p.flow = some f) (hap : f.alproto = c.ALPROTO_SSH) (hst : f.alstate = some st)
    (h1 : st.cli_hdr.software_version ≠ none) (h2 : st.srv_hdr.software_version ≠ none)
    (hh : env.CreateJSONHeader p = some header) (ht : env.json_object_tjs = true) :
    (JsonSshLogger c env p).trace
        = ([Ev.wrlock, Ev.getAppProtocol, Ev.getAppState, Ev.read Field.cliSoftwareVersion,
              Ev.read Field.srvSoftwareVersion] ++ (JsonSshLogJSON env (Json.obj []) st).2)
            ++ [Ev.output
                (json_object_set_new (env.json_object_set_new_ok SetCall.ssh) (Json.obj header)
                  "ssh" (some (JsonSshLogJSON env (Json.obj []) st).1))
                (env.OutputJSONBuffer
                  (json_object_set_new (env.json_object_set_new_ok SetCall.ssh)
                    (Json.obj header) "ssh" (some (JsonSshLogJSON env (Json.obj []) st).1))),
              Ev.read Field.cliFlags, Ev.write Field.cliFlags, Ev.unlock] ∧
      (JsonSshLogger c env p).flow = some { f with alstate := some (markLogged c st) } := by
  rcases p with ⟨pf, tcp⟩
  rcases f with ⟨ap, s⟩
  simp only at hp hap hst
  subst hp hap hst
  simp only [JsonSshLogger, ne_eq, not_true_eq_false, if_false, h1, h2, hh, ht]
  simp

/-- The sink calls of the logger on the path that reaches the sink: exactly one. -/
theorem logger_emits_calls (c : Consts) (env : Env) (p : Packet) (f : Flow) (st : SshState)
    (header : List (String × Json))
    (hp : p.flow = some f) (hap : f.alproto = c.ALPROTO_SSH) (hst : f.alstate = some st)
    (h1 : st.cli_hdr.software_version ≠ none) (h2 : st.srv_hdr.software_version ≠ none)
    (hh : env.CreateJSONHeader p = some header) (ht : env.json_object_tjs = true) :
    sinkCalls (JsonSshLogger c env p).trace
        = [(json_object_set_new (env.json_object_set_new_ok SetCall.ssh) (Json.obj header)
              "ssh" (some (JsonSshLogJSON env (Json.obj []) st).1),
            env.OutputJSONBuffer
              (json_object_set_new (env.json_object_set_new_ok SetCall.ssh) (Json.obj header)
                "ssh" (some (JsonSshLogJSON env (Json.obj []) st).1)))] := by
  rw [(logger_emits c env p f st header hp hap hst h1 h2 hh ht).1]
  simp [sinkCalls_append, sinkCalls, sinkCalls_logJSON]

/-- Either the logger makes no sink call, writes nothing and leaves the flow as it was,
or every check passed and both allocations succeeded. -/
theorem logger_cases (c : Consts) (env : Env) (p : Packet) :
    (sinkCalls (JsonSshLogger c env p).trace = [] ∧
        (∀ e ∈ (JsonSshLogger c env p).trace, e.isWrite = false) ∧
        (JsonSshLogger c env p).flow = p.flow) ∨
      ∃ f st header, p.flow = some f ∧ f.alproto = c.ALPROTO_SSH ∧ f.alstate = some st ∧
        st.cli_hdr.software_version ≠ none ∧ st.srv_hdr.software_version ≠ none ∧
        env.CreateJSONHeader p = some header ∧ env.json_object_tjs = true := by
  rcases p with ⟨_ | ⟨ap, _ | st⟩, tcp⟩
  · simp [JsonSshLogger, sinkCalls]
  · by_cases h : ap = c.ALPROTO_SSH <;> simp [JsonSshLogger, sinkCalls, Ev.isWrite, h]
  · by_cases h : ap = c.ALPROTO_SSH <;>
      by_cases h1 : st.cli_hdr.software_version = none <;>
      by_cases h2 : st.srv_hdr.software_version = none <;>
      cases h3 : env.CreateJSONHeader ⟨some ⟨c.ALPROTO_SSH, some st⟩, tcp⟩ <;>
      cases h4 : env.json_object_tjs <;>
      simp [JsonSshLogger, sinkCalls, Ev.isWrite, h, h1, h2, h3, h4]

theorem get_set_new_self (members : List (String × Json)) (key : String) (v : Json) :
    json_object_get (json_object_set_new true (Json.obj members) key (some v)) key
      = some v := by
  simp [json_object_get, json_object_set_new, lookup_setMember_self]

theorem get_set_new_ne (ok : Bool) (o : Json) (key other : String) (v : Option Json)
    (hne : other ≠ key) :
    json_object_get (json_object_set_new ok o key v) other = json_object_get o other := by
  cases v <;> cases o <;> cases ok <;>
    simp [json_object_get, json_object_set_new, lookup_setMember_ne _ _ _ _ hne]

theorem set_new_obj (ok : Bool) (members : List (String × Json)) (key : String)
    (v : Option Json) :
    ∃ m, json_object_set_new ok (Json.obj members) key v = Json.obj m := by
  cases v <;> cases ok <;> simp [json_object_set_new]

/-- The result of the renderer as the two `json_object_set_new` calls on `tjs`. -/
theorem logJSON_fst (env : Env) (tjs : Json) (st : SshState) :
    (JsonSshLogJSON env tjs st).1
      = json_object_set_new (env.json_object_set_new_ok SetCall.server)
          (json_object_set_new (env.json_object_set_new_ok SetCall.client) tjs "client"
            (if env.json_object_cjs then
              some (renderSide env st.cli_hdr Field.cliProtoVersion Field.cliSoftwareVersion
                SetCall.cliProtoVersion SetCall.cliSoftwareVersion)
            else none))
          "server"
          (if env.json_object_sjs then
            some (renderSide env st.srv_hdr Field.srvProtoVersion Field.srvSoftwareVersion
              SetCall.srvProtoVersion SetCall.srvSoftwareVersion)
          else none) := by
  cases h5 : env.json_object_cjs <;> cases h6 : env.json_object_sjs <;>
    simp [JsonSshLogJSON, renderSide, h5, h6]

theorem logJSON_other (env : Env) (tjs : Json) (st : SshState) (k : String)
    (hk1 : k ≠ "client") (hk2 : k ≠ "server") :
    json_object_get (JsonSshLogJSON env tjs st).1 k = json_object_get tjs k := by
  rw [logJSON_fst, get_set_new_ne _ _ _ _ _ hk2, get_set_new_ne _ _ _ _ _ hk1]

theorem logJSON_client (env : Env) (members : List (String × Json)) (st : SshState)
    (hc : env.json_object_cjs = true) (hset : env.json_object_set_new_ok SetCall.client = true) :
    json_object_get (JsonSshLogJSON env (Json.obj members) st).1 "client"
      = some (renderSide env st.cli_hdr Field.cliProtoVersion Field.cliSoftwareVersion
          SetCall.cliProtoVersion SetCall.cliSoftwareVersion) := by
  have hne : ("client" : String) ≠ "server" := by decide
  rw [logJSON_fst, get_set_new_ne _ _ _ _ _ hne, hc, hset]
  simp only [if_true]
  exact get_set_new_self _ _ _

theorem logJSON_server (env : Env) (members : List (String × Json)) (st : SshState)
    (hs : env.json_object_sjs = true) (hset : env.json_object_set_new_ok SetCall.server = true) :
    json_object_get (JsonSshLogJSON env (Json.obj members) st).1 "server"
      = some (renderSide env st.srv_hdr Field.srvProtoVersion Field.srvSoftwareVersion
          SetCall.srvProtoVersion SetCall.srvSoftwareVersion) := by
  rw [logJSON_fst, hs, hset]
  simp only [if_true]
  obtain ⟨m, hm⟩ := set_new_obj (env.json_object_set_new_ok SetCall.client) members "client"
    (if env.json_object_cjs = true then
      some (renderSide env st.cli_hdr Field.cliProtoVersion Field.cliSoftwareVersion
        SetCall.cliProtoVersion SetCall.cliSoftwareVersion)
    else none)
  rw [hm]
  exact get_set_new_self _ _ _

theorem logJSON_client_null (env : Env) (tjs : Json) (st : SshState)
    (hc : env.json_object_cjs = false) :
    json_object_get (JsonSshLogJSON env tjs st).1 "client" = json_object_get tjs "client" := by
  have hne : ("client" : String) ≠ "server" := by decide
  rw [logJSON_fst, get_set_new_ne _ _ _ _ _ hne, hc]
  cases tjs <;> simp [json_object_set_new]

theorem logJSON_server_null (env : Env) (tjs : Json) (st : SshState)
    (hs : env.json_object_sjs = false) :
    json_object_get (JsonSshLogJSON env tjs st).1 "server" = json_object_get tjs "server" := by
  have hne : ("server" : String) ≠ "client" := by decide
  rw [logJSON_fst, hs]
  simp only [Bool.false_eq_true, if_false]
  have h0 : ∀ o : Json, json_object_set_new (env.json_object_set_new_ok SetCall.server) o
      "server" none = o := by
    intro o
    cases o <;> simp [json_object_set_new]
  rw [h0, get_set_new_ne _ _ _ _ _ hne]

/-- The object of a side when its strings are present and its calls succeed. -/
theorem renderSide_ok (env : Env) (hdr : SshHeader) (fp fs : Field) (cp cs : SetCall)
    (pv sw : Bytes) (h1 : hdr.proto_version = some pv) (h2 : hdr.software_version = some sw)
    (hp : env.json_string_ok fp pv = true) (hs : env.json_string_ok fs sw = true)
    (hcp : env.json_object_set_new_ok cp = true) (hcs : env.json_object_set_new_ok cs = true) :
    renderSide env hdr fp fs cp cs
      = Json.obj [("proto_version", Json.str pv), ("software_version", Json.str sw)] := by
  have hps : ("proto_version" : String) ≠ "software_version" := by decide
  simp [renderSide, json_object_set_new, json_string, setMember, h1, h2, hp, hs, hcp, hcs, hps]

/-- The `software_version` member of a side when that string is present and the two
calls for it succeed, whatever happens to `proto_version`. -/
theorem renderSide_software_version (env : Env) (hdr : SshHeader) (fp fs : Field)
    (cp cs : SetCall) (sw : Bytes) (h2 : hdr.software_version = some sw)
    (hs : env.json_string_ok fs sw = true) (hcs : env.json_object_set_new_ok cs = true) :
    json_object_get (renderSide env hdr fp fs cp cs) "software_version"
      = some (Json.str sw) := by
  have hps : ("proto_version" : String) ≠ "software_version" := by decide
  obtain ⟨m, hm⟩ := set_new_obj (env.json_object_set_new_ok cp) [] "proto_version"
    (json_string (env.json_string_ok fp) hdr.proto_version)
  simp only [renderSide]
  rw [hm]
  simp only [h2, json_string, hs, if_true, hcs]
  exact get_set_new_self _ _ _

/-- When the gate returns TRUE. -/
theorem JsonSshCondition_gate (c : Consts) (p : Packet) :
    (JsonSshCondition c p).ret = true ↔
      ∃ f st, p.flow = some f ∧ p.tcp = true ∧ f.alproto = c.ALPROTO_SSH ∧
        f.alstate = some st ∧ stateLogged c st.cli_hdr.flags = false ∧
        st.cli_hdr.software_version ≠ none ∧ st.srv_hdr.software_version ≠ none := by
  rcases p with ⟨_ | ⟨ap, _ | st⟩, tcp⟩
  · simp [JsonSshCondition]
  · cases tcp <;> by_cases h : ap = c.ALPROTO_SSH <;> simp [JsonSshCondition, h]
  · cases tcp <;> by_cases h : ap = c.ALPROTO_SSH <;>
      cases hl : stateLogged c st.cli_hdr.flags <;>
      by_cases h1 : st.cli_hdr.software_version = none <;>
      by_cases h2 : st.srv_hdr.software_version = none <;>
      simp [JsonSshCondition, h, hl, h1, h2]

/-! ## Properties -/

/-- C1: `JsonSshCondition` returns TRUE exactly when the packet has a flow, is TCP, the
flow's protocol is `ALPROTO_SSH`, the flow has an SSH state, `SSH_FLAG_STATE_LOGGED` is
clear in `cli_hdr.flags` and both software versions are non-NULL; in every other case it
returns FALSE. -/
theorem JsonSshCondition_true_iff (c : Consts) (p : Packet) :
    (JsonSshCondition c p).ret = true ↔
      ∃ f st, p.flow = some f ∧ p.tcp = true ∧ f.alproto = c.ALPROTO_SSH ∧
        f.alstate = some st ∧
        st.cli_hdr.flags &&& c.SSH_FLAG_STATE_LOGGED = 0 ∧
        st.cli_hdr.software_version ≠ none ∧ st.srv_hdr.software_version ≠ none := by
  rcases p with ⟨_ | ⟨ap, _ | st⟩, tcp⟩
  · simp [JsonSshCondition]
  · cases tcp <;> by_cases h : ap = c.ALPROTO_SSH <;> simp [JsonSshCondition, h]
  · cases tcp <;> by_cases h : ap = c.ALPROTO_SSH <;>
      by_cases hl : st.cli_hdr.flags &&& c.SSH_FLAG_STATE_LOGGED = 0 <;>
      by_cases h1 : st.cli_hdr.software_version = none <;>
      by_cases h2 : st.srv_hdr.software_version = none <;>
      simp [JsonSshCondition, stateLogged, h, hl, h1, h2]

/-- C7: for a flow whose protocol is not `ALPROTO_SSH` or that has no SSH state,
`JsonSshCondition` returns FALSE, and `JsonSshLogger` makes no sink call, writes no field
of the state and leaves the flow as it was. -/
theorem no_emit_for_wrong_protocol (c : Consts) (env : Env) (p : Packet) (f : Flow)
    (hp : p.flow = some f) (h : f.alproto ≠ c.ALPROTO_SSH ∨ f.alstate = none) :
    (JsonSshCondition c p).ret = false ∧
      sinkCalls (JsonSshLogger c env p).trace = [] ∧
      (JsonSshLogger c env p).flow = some f ∧
      ∀ e ∈ (JsonSshLogger c env p).trace, e.isWrite = false := by
  rcases p with ⟨pf, tcp⟩
  rcases f with ⟨ap, st⟩
  simp only at hp h
  subst hp
  by_cases hap : ap = c.ALPROTO_SSH
  · have hst : st = none := by
      rcases h with h | h
      · exact absurd hap h
      · exact h
    subst hst
    cases tcp <;> simp [JsonSshCondition, JsonSshLogger, sinkCalls, Ev.isWrite, hap]
  · cases tcp <;> simp [JsonSshCondition, JsonSshLogger, sinkCalls, Ev.isWrite, hap]

/-- Witness of C7 on a flow whose protocol is unset (0) and that has no state. -/
theorem no_emit_for_wrong_protocol_witness :
    (JsonSshCondition exConsts { flow := some { alproto := 0, alstate := none }, tcp := true }).ret
        = false ∧
      sinkCalls (JsonSshLogger exConsts envOk
        { flow := some { alproto := 0, alstate := none }, tcp := true }).trace = [] ∧
      (JsonSshLogger exConsts envOk
        { flow := some { alproto := 0, alstate := none }, tcp := true }).flow
        = some { alproto := 0, alstate := none } ∧
      ∀ e ∈ (JsonSshLogger exConsts envOk
        { flow := some { alproto := 0, alstate := none }, tcp := true }).trace,
        e.isWrite = false :=
  no_emit_for_wrong_protocol exConsts envOk
    { flow := some { alproto := 0, alstate := none }, tcp := true }
    { alproto := 0, alstate := none } rfl (Or.inl (by decide))

/-- C6: once `SSH_FLAG_STATE_LOGGED` is set on the flow's state, any number of sequential
invocations (the gate, then the logger only if the gate returned TRUE) have the gate
return FALSE every time, make no sink call and leave the flow, hence the flag, as it was. -/
theorem idempotent_skip (c : Consts) (invs : List Invocation) (f : Flow) (st : SshState)
    (hst : f.alstate = some st) (hl : stateLogged c st.cli_hdr.flags = true) :
    (orchestrateSeq c invs f).gates = List.replicate invs.length false ∧
      sinkCalls (orchestrateSeq c invs f).trace = [] ∧
      (orchestrateSeq c invs f).flow = f := by
  induction invs with
  | nil => simp [orchestrateSeq, sinkCalls]
  | cons i rest ih =>
    obtain ⟨hg, hf, hs⟩ := orchestrate_of_logged c i f st hst hl
    obtain ⟨ih1, ih2, ih3⟩ := ih
    simp [orchestrateSeq, hg, hf, hs, ih1, ih2, ih3, sinkCalls_append, List.replicate_succ]

/-- Witness of C6: three further packets on a complete flow that is already logged. -/
theorem idempotent_skip_witness :
    (orchestrateSeq exConsts [⟨true, envOk⟩, ⟨true, envOk⟩, ⟨false, envOk⟩]
        (completeFlow exConsts 4)).gates = List.replicate 3 false ∧
      sinkCalls (orchestrateSeq exConsts [⟨true, envOk⟩, ⟨true, envOk⟩, ⟨false, envOk⟩]
        (completeFlow exConsts 4)).trace = [] ∧
      (orchestrateSeq exConsts [⟨true, envOk⟩, ⟨true, envOk⟩, ⟨false, envOk⟩]
        (completeFlow exConsts 4)).flow = completeFlow exConsts 4 :=
  idempotent_skip exConsts [⟨true, envOk⟩, ⟨true, envOk⟩, ⟨false, envOk⟩]
    (completeFlow exConsts 4) (completeState 4) rfl (by decide)

/-- C10: with no flow neither function performs a lock operation, nor does the condition
on a packet that is not TCP; otherwise the logger takes the write lock first and the
condition the read lock first, each releases it last, and no other lock operation occurs:
every access to the flow's state lies between the acquire and the release. -/
theorem lock_balance (c : Consts) (env : Env) (p : Packet) :
    (p.flow = none →
      (JsonSshLogger c env p).trace = [] ∧ (JsonSshCondition c p).trace = []) ∧
    (p.tcp = false → (JsonSshCondition c p).trace = []) ∧
    (p.flow ≠ none → ∃ mid, (JsonSshLogger c env p).trace = Ev.wrlock :: (mid ++ [Ev.unlock]) ∧
      ∀ e ∈ mid, e.isLockOp = false) ∧
    (p.flow ≠ none → p.tcp = true →
      ∃ mid, (JsonSshCondition c p).trace = Ev.rdlock :: (mid ++ [Ev.unlock]) ∧
        ∀ e ∈ mid, e.isLockOp = false) := by
  rcases p with ⟨_ | ⟨ap, s⟩, tcp⟩
  · simp [JsonSshLogger, JsonSshCondition]
  · refine ⟨by simp, ?_, ?_, ?_⟩
    · intro h
      simp only at h
      subst h
      simp [JsonSshCondition]
    · intro _
      refine ⟨(JsonSshLogger c env ⟨some ⟨ap, s⟩, tcp⟩).trace.tail.dropLast, ?_, ?_⟩ <;>
        by_cases h : ap = c.ALPROTO_SSH <;> rcases s with _ | st <;>
        simp [JsonSshLogger, JsonSshLogJSON, Ev.isLockOp, h] <;>
        by_cases h1 : st.cli_hdr.software_version = none <;>
        by_cases h2 : st.srv_hdr.software_version = none <;>
        cases h3 : env.CreateJSONHeader ⟨some ⟨c.ALPROTO_SSH, some st⟩, tcp⟩ <;>
        cases h4 : env.json_object_tjs <;>
        cases h5 : env.json_object_cjs <;>
        cases h6 : env.json_object_sjs <;>
        simp [Ev.isLockOp, h1, h2, h3, h4, h5, h6]
    · intro _ ht
      simp only at ht
      subst ht
      refine ⟨(JsonSshCondition c ⟨some ⟨ap, s⟩, true⟩).trace.tail.dropLast, ?_, ?_⟩ <;>
        by_cases h : ap = c.ALPROTO_SSH <;> rcases s with _ | st <;>
        simp [JsonSshCondition, Ev.isLockOp, h] <;>
        cases hl : stateLogged c st.cli_hdr.flags <;>
        by_cases h1 : st.cli_hdr.software_version = none <;>
        by_cases h2 : st.srv_hdr.software_version = none <;>
        simp [Ev.isLockOp, hl, h1, h2]

/-- Witness of C10 on a TCP packet of a complete, unlogged flow. -/
theorem lock_balance_witness :
    (∃ mid, (JsonSshLogger exConsts envOk ⟨some (completeFlow exConsts 0), true⟩).trace
        = Ev.wrlock :: (mid ++ [Ev.unlock]) ∧ ∀ e ∈ mid, e.isLockOp = false) ∧
    (∃ mid, (JsonSshCondition exConsts ⟨some (completeFlow exConsts 0), true⟩).trace
        = Ev.rdlock :: (mid ++ [Ev.unlock]) ∧ ∀ e ∈ mid, e.isLockOp = false) :=
  ⟨(lock_balance exConsts envOk ⟨some (completeFlow exConsts 0), true⟩).2.2.1
      (Option.some_ne_none _),
    (lock_balance exConsts envOk ⟨some (completeFlow exConsts 0), true⟩).2.2.2
      (Option.some_ne_none _) rfl⟩

/-- C2 at the failing schedule: two workers on a complete, unlogged flow. When both
evaluate the gate before either runs the logger (schedule 0, 1, 0, 1) the sink receives
the event twice; when the invocations do not overlap (schedule 0, 0, 1, 1) it receives
it once. -/
theorem race_two_workers_emit_twice :
    (runSchedule exConsts (raceWorld exConsts) [0, 1, 0, 1]).sink
        = [Json.obj [("ssh", completeSsh)], Json.obj [("ssh", completeSsh)]] ∧
      (runSchedule exConsts (raceWorld exConsts) [0, 0, 1, 1]).sink
        = [Json.obj [("ssh", completeSsh)]] := by
  constructor <;>
    simp [runSchedule, stepWorker, raceWorld, completeFlow, completeState, completeSsh, envOk,
      exConsts,
      JsonSshCondition, JsonSshLogger, JsonSshLogJSON, renderSide, stateLogged, markLogged,
      sinkCalls, json_object_set_new, json_string, setMember]

/-- C5 at the failing input: on a complete flow whose `SSH_FLAG_STATE_LOGGED` is already
set, `JsonSshLogger` still hands the event to the sink. -/
theorem logger_emits_when_already_logged :
    stateLogged exConsts (completeState 4).cli_hdr.flags = true ∧
      sinkCalls (JsonSshLogger exConsts envOk
          ⟨some (completeFlow exConsts 4), true⟩).trace
        = [(Json.obj [("ssh", completeSsh)], true)] := by
  constructor
  · decide
  · simp [completeFlow, completeState, completeSsh, envOk, exConsts,
      JsonSshLogger, JsonSshLogJSON, renderSide, sinkCalls, json_object_set_new, json_string,
      setMember]

/-- C3 as stated fails: on a complete, unlogged flow the sink returns failure and
`SSH_FLAG_STATE_LOGGED` is set when `JsonSshLogger` returns. -/
theorem mark_despite_sink_failure :
    stateLogged exConsts (completeState 0).cli_hdr.flags = false ∧
      sinkCalls (JsonSshLogger exConsts envSinkFails
          ⟨some (completeFlow exConsts 0), true⟩).trace
        = [(Json.obj [("ssh", completeSsh)], false)] ∧
      (JsonSshLogger exConsts envSinkFails ⟨some (completeFlow exConsts 0), true⟩).flow
        = some (completeFlow exConsts 4) ∧
      stateLogged exConsts (completeState 4).cli_hdr.flags = true := by
  refine ⟨by decide, ?_, ?_, by decide⟩ <;>
    simp [completeFlow, completeState, completeSsh, envOk, envSinkFails, exConsts,
      JsonSshLogger, JsonSshLogJSON, renderSide, sinkCalls, json_object_set_new, json_string,
      setMember, markLogged]

/-- C3 amended: `JsonSshLogger` either makes no sink call, writes no field and leaves the
flow as it was, or its trace ends with the one sink call, then the read and the write of
`cli_hdr.flags`, then the unlock, with no sink call and no write before: the flag is set
after the sink call, whatever the sink returned, and the flow afterwards is the flow
before with `SSH_FLAG_STATE_LOGGED` or-ed into `cli_hdr.flags` and nothing else changed. -/
theorem mark_follows_sink_call (c : Consts) (env : Env) (p : Packet)
    (hmask : c.SSH_FLAG_STATE_LOGGED ≠ 0) :
    (sinkCalls (JsonSshLogger c env p).trace = [] ∧
        (∀ e ∈ (JsonSshLogger c env p).trace, e.isWrite = false) ∧
        (JsonSshLogger c env p).flow = p.flow) ∨
      ∃ f st before js,
        p.flow = some f ∧ f.alstate = some st ∧
        (JsonSshLogger c env p).trace
          = before ++ [Ev.output js (env.OutputJSONBuffer js), Ev.read Field.cliFlags,
              Ev.write Field.cliFlags, Ev.unlock] ∧
        sinkCalls before = [] ∧ (∀ e ∈ before, e.isWrite = false) ∧
        (JsonSshLogger c env p).flow
          = some { alproto := f.alproto
                   alstate := some
                    { cli_hdr :=
                        { flags := st.cli_hdr.flags ||| c.SSH_FLAG_STATE_LOGGED
                          proto_version := st.cli_hdr.proto_version
                          software_version := st.cli_hdr.software_version }
                      srv_hdr := st.srv_hdr } } ∧
        stateLogged c (st.cli_hdr.flags ||| c.SSH_FLAG_STATE_LOGGED) = true := by
  rcases logger_cases c env p with h | ⟨f, st, header, hp, hap, hst, h1, h2, hh, ht⟩
  · exact Or.inl h
  · obtain ⟨htr, hf⟩ := logger_emits c env p f st header hp hap hst h1 h2 hh ht
    refine Or.inr ⟨f, st, _, _, hp, hst, htr, ?_, ?_, hf, stateLogged_or_mask c _ hmask⟩
    · simp [sinkCalls_append, sinkCalls, sinkCalls_logJSON]
    · intro e he
      rcases List.mem_append.mp he with h | h
      · revert h
        simp only [List.mem_cons, List.mem_singleton, List.not_mem_nil, or_false]
        rintro (h | h | h | h | h) <;> subst h <;> rfl
      · exact logJSON_no_write env _ st e h

/-- Witness of the amended C3 with a sink that rejects the event. -/
theorem mark_follows_sink_call_witness :
    (sinkCalls (JsonSshLogger exConsts envSinkFails
          ⟨some (completeFlow exConsts 0), true⟩).trace = [] ∧
        (∀ e ∈ (JsonSshLogger exConsts envSinkFails
          ⟨some (completeFlow exConsts 0), true⟩).trace, e.isWrite = false) ∧
        (JsonSshLogger exConsts envSinkFails ⟨some (completeFlow exConsts 0), true⟩).flow
          = some (completeFlow exConsts 0)) ∨
      ∃ f st before js,
        some (completeFlow exConsts 0) = some f ∧ f.alstate = some st ∧
        (JsonSshLogger exConsts envSinkFails ⟨some (completeFlow exConsts 0), true⟩).trace
          = before ++ [Ev.output js (envSinkFails.OutputJSONBuffer js), Ev.read Field.cliFlags,
              Ev.write Field.cliFlags, Ev.unlock] ∧
        sinkCalls before = [] ∧ (∀ e ∈ before, e.isWrite = false) ∧
        (JsonSshLogger exConsts envSinkFails ⟨some (completeFlow exConsts 0), true⟩).flow
          = some { alproto := f.alproto
                   alstate := some
                    { cli_hdr :=
                        { flags := st.cli_hdr.flags ||| exConsts.SSH_FLAG_STATE_LOGGED
                          proto_version := st.cli_hdr.proto_version
                          software_version := st.cli_hdr.software_version }
                      srv_hdr := st.srv_hdr } } ∧
        stateLogged exConsts (st.cli_hdr.flags ||| exConsts.SSH_FLAG_STATE_LOGGED) = true :=
  mark_follows_sink_call exConsts envSinkFails ⟨some (completeFlow exConsts 0), true⟩
    (by decide)

/-- C4 as stated fails: with the client protocol version `NULL` and both software
versions set, `JsonSshLogger` hands an event to the sink, and the event has no
`ssh.client.proto_version`. -/
theorem emit_with_absent_proto_version :
    noProtoState.cli_hdr.proto_version = none ∧
      sinkCalls (JsonSshLogger exConsts envOk
          ⟨some { alproto := exConsts.ALPROTO_SSH, alstate := some noProtoState }, true⟩).trace
        = [(Json.obj [("ssh", Json.obj
              [("client", Json.obj [("software_version", Json.str libssh)]),
               ("server", Json.obj [("proto_version", Json.str v20),
                  ("software_version", Json.str dropbear)])])], true)] ∧
      jsonPath (Json.obj [("ssh", Json.obj
              [("client", Json.obj [("software_version", Json.str libssh)]),
               ("server", Json.obj [("proto_version", Json.str v20),
                  ("software_version", Json.str dropbear)])])])
          ["ssh", "client", "proto_version"] = none := by
  refine ⟨rfl, ?_, ?_⟩
  · simp [noProtoState, envOk, exConsts, JsonSshLogger, JsonSshLogJSON, renderSide, sinkCalls,
      json_object_set_new, json_string, setMember]
  · simp [jsonPath, json_object_get, List.lookup]

/-- C4 amended: whenever `JsonSshLogger` hands an event to the sink, both software
versions of the state are non-NULL, and the event carries `ssh.client.software_version`,
respectively `ssh.server.software_version`, holding the state's bytes, whenever the
jansson calls that build it succeed: `json_object()` for that side, `json_string` on the
value, and `json_object_set_new` for `software_version`, for the side's key and for
`ssh`. Nothing is promised about the protocol versions. -/
theorem emitted_software_versions_present (c : Consts) (env : Env) (p : Packet) (f : Flow)
    (st : SshState) (js : Json) (accepted : Bool)
    (hp : p.flow = some f) (hst : f.alstate = some st)
    (hjs : (js, accepted) ∈ sinkCalls (JsonSshLogger c env p).trace) :
    ∃ csw ssw, st.cli_hdr.software_version = some csw ∧
      st.srv_hdr.software_version = some ssw ∧
      (env.json_object_cjs = true →
        env.json_string_ok Field.cliSoftwareVersion csw = true →
        env.json_object_set_new_ok SetCall.cliSoftwareVersion = true →
        env.json_object_set_new_ok SetCall.client = true →
        env.json_object_set_new_ok SetCall.ssh = true →
        jsonPath js ["ssh", "client", "software_version"] = some (Json.str csw)) ∧
      (env.json_object_sjs = true →
        env.json_string_ok Field.srvSoftwareVersion ssw = true →
        env.json_object_set_new_ok SetCall.srvSoftwareVersion = true →
        env.json_object_set_new_ok SetCall.server = true →
        env.json_object_set_new_ok SetCall.ssh = true →
        jsonPath js ["ssh", "server", "software_version"] = some (Json.str ssw)) := by
  rcases logger_cases c env p with h | ⟨f1, st1, header, hp1, hap, hst1, h1, h2, hh, ht⟩
  · rw [h.1] at hjs
    cases hjs
  · have hf : f1 = f := by
      rw [hp] at hp1
      exact (Option.some.inj hp1).symm
    subst hf
    have hs : st1 = st := by
      rw [hst] at hst1
      exact (Option.some.inj hst1).symm
    subst hs
    have hs := logger_emits_calls c env p f1 st1 header hp hap hst h1 h2 hh ht
    rw [hs] at hjs
    simp only [List.mem_singleton, Prod.mk.injEq] at hjs
    obtain ⟨hjs, _⟩ := hjs
    subst hjs
    cases hcs : st1.cli_hdr.software_version with
    | none => exact absurd hcs h1
    | some csw =>
      cases hss : st1.srv_hdr.software_version with
      | none => exact absurd hss h2
      | some ssw =>
        refine ⟨csw, ssw, rfl, rfl, ?_, ?_⟩
        · intro hc hstr hsw hcl hssh
          simp only [jsonPath, hssh, get_set_new_self, logJSON_client env [] st1 hc hcl,
            renderSide_software_version env _ _ _ _ _ csw hcs hstr hsw]
        · intro hsj hstr hsw hsv hssh
          simp only [jsonPath, hssh, get_set_new_self, logJSON_server env [] st1 hsj hsv,
            renderSide_software_version env _ _ _ _ _ ssw hss hstr hsw]

/-- Witness of the amended C4 on the state whose client protocol version is `NULL`. -/
theorem emitted_software_versions_present_witness :
    ∃ csw ssw, noProtoState.cli_hdr.software_version = some csw ∧
      noProtoState.srv_hdr.software_version = some ssw ∧
      (envOk.json_object_cjs = true →
        envOk.json_string_ok Field.cliSoftwareVersion csw = true →
        envOk.json_object_set_new_ok SetCall.cliSoftwareVersion = true →
        envOk.json_object_set_new_ok SetCall.client = true →
        envOk.json_object_set_new_ok SetCall.ssh = true →
        jsonPath (Json.obj [("ssh", Json.obj
              [("client", Json.obj [("software_version", Json.str libssh)]),
               ("server", Json.obj [("proto_version", Json.str v20),
                  ("software_version", Json.str dropbear)])])])
          ["ssh", "client", "software_version"] = some (Json.str csw)) ∧
      (envOk.json_object_sjs = true →
        envOk.json_string_ok Field.srvSoftwareVersion ssw = true →
        envOk.json_object_set_new_ok SetCall.srvSoftwareVersion = true →
        envOk.json_object_set_new_ok SetCall.server = true →
        envOk.json_object_set_new_ok SetCall.ssh = true →
        jsonPath (Json.obj [("ssh", Json.obj
              [("client", Json.obj [("software_version", Json.str libssh)]),
               ("server", Json.obj [("proto_version", Json.str v20),
                  ("software_version", Json.str dropbear)])])])
          ["ssh", "server", "software_version"] = some (Json.str ssw)) :=
  emitted_software_versions_present exConsts envOk
    ⟨some { alproto := exConsts.ALPROTO_SSH, alstate := some noProtoState }, true⟩
    { alproto := exConsts.ALPROTO_SSH, alstate := some noProtoState } noProtoState
    (Json.obj [("ssh", Json.obj
        [("client", Json.obj [("software_version", Json.str libssh)]),
         ("server", Json.obj [("proto_version", Json.str v20),
            ("software_version", Json.str dropbear)])])])
    true rfl rfl
    (by simp [noProtoState, envOk, exConsts, JsonSshLogger, JsonSshLogJSON, renderSide,
      sinkCalls, json_object_set_new, json_string, setMember])

/-- C8 as stated fails, in two ways, on states whose four strings are present. When the
first `json_object()` of the renderer returns `NULL`, `JsonSshLogJSON` adds the key
`server` only. When the client software version is not valid UTF-8, `json_string`
returns `NULL` for it and the client object has no `software_version`. -/
theorem client_missing_when_allocation_fails :
    (JsonSshLogJSON envNoCjs (Json.obj []) (completeState 0)).1
        = Json.obj [("server", Json.obj [("proto_version", Json.str v20),
            ("software_version", Json.str dropbear)])] ∧
      json_object_get (JsonSshLogJSON envNoCjs (Json.obj []) (completeState 0)).1 "client"
        = none ∧
      badUtf8State.cli_hdr.software_version = some libFFssh ∧
      envStrict.json_string_ok Field.cliSoftwareVersion libFFssh = false ∧
      (JsonSshLogJSON envStrict (Json.obj []) badUtf8State).1
        = Json.obj [("client", Json.obj [("proto_version", Json.str v20)]),
            ("server", Json.obj [("proto_version", Json.str v20),
              ("software_version", Json.str dropbear)])] := by
  refine ⟨?_, ?_, rfl, by decide, ?_⟩
  · simp [JsonSshLogJSON, renderSide, envNoCjs, envOk, completeState, json_object_set_new,
      json_string, setMember]
  · simp [JsonSshLogJSON, renderSide, envNoCjs, envOk, completeState, json_object_set_new,
      json_string, setMember, json_object_get, List.lookup]
  · simp [JsonSshLogJSON, renderSide, envStrict, envOk, badUtf8State, json_object_set_new,
      json_string, setMember, v20, dropbear, libFFssh]

/-- C8 amended: for a state whose four strings are present, a side whose jansson calls
all succeed (`json_object()`, `json_string` on its two values, its three
`json_object_set_new` calls) has its key of the target, `client` for the client header
and `server` for the server header, set to the object of its two strings, bytes
unchanged; no other key of the target changes, whatever the calls return; a side whose
`json_object()` returns `NULL` leaves its key as it was; and `JsonSshLogger`, when its
own `json_object_set_new` succeeds, hands to the sink an event whose `ssh` member is the
state rendered into an empty object. -/
theorem JsonSshLogJSON_structural_copy (c : Consts) (env : Env)
    (members : List (String × Json)) (st : SshState) (cpv csw spv ssw : Bytes)
    (h1 : st.cli_hdr.proto_version = some cpv) (h2 : st.cli_hdr.software_version = some csw)
    (h3 : st.srv_hdr.proto_version = some spv) (h4 : st.srv_hdr.software_version = some ssw) :
    (env.json_object_cjs = true →
        env.json_string_ok Field.cliProtoVersion cpv = true →
        env.json_string_ok Field.cliSoftwareVersion csw = true →
        env.json_object_set_new_ok SetCall.cliProtoVersion = true →
        env.json_object_set_new_ok SetCall.cliSoftwareVersion = true →
        env.json_object_set_new_ok SetCall.client = true →
        json_object_get (JsonSshLogJSON env (Json.obj members) st).1 "client"
          = some (Json.obj [("proto_version", Json.str cpv),
              ("software_version", Json.str csw)])) ∧
      (env.json_object_sjs = true →
        env.json_string_ok Field.srvProtoVersion spv = true →
        env.json_string_ok Field.srvSoftwareVersion ssw = true →
        env.json_object_set_new_ok SetCall.srvProtoVersion = true →
        env.json_object_set_new_ok SetCall.srvSoftwareVersion = true →
        env.json_object_set_new_ok SetCall.server = true →
        json_object_get (JsonSshLogJSON env (Json.obj members) st).1 "server"
          = some (Json.obj [("proto_version", Json.str spv),
              ("software_version", Json.str ssw)])) ∧
      (∀ k, k ≠ "client" → k ≠ "server" →
        json_object_get (JsonSshLogJSON env (Json.obj members) st).1 k
          = json_object_get (Json.obj members) k) ∧
      (env.json_object_cjs = false →
        json_object_get (JsonSshLogJSON env (Json.obj members) st).1 "client"
          = json_object_get (Json.obj members) "client") ∧
      (env.json_object_sjs = false →
        json_object_get (JsonSshLogJSON env (Json.obj members) st).1 "server"
          = json_object_get (Json.obj members) "server") ∧
      ∀ p f header, p.flow = some f → f.alproto = c.ALPROTO_SSH → f.alstate = some st →
        env.CreateJSONHeader p = some header → env.json_object_tjs = true →
        env.json_object_set_new_ok SetCall.ssh = true →
        ∃ js, sinkCalls (JsonSshLogger c env p).trace = [(js, env.OutputJSONBuffer js)] ∧
          json_object_get js "ssh" = some (JsonSshLogJSON env (Json.obj []) st).1 ∧
          ∀ k, k ≠ "ssh" → json_object_get js k = json_object_get (Json.obj header) k := by
  refine ⟨?_, ?_, ?_, ?_, ?_, ?_⟩
  · intro hc hp hs hcp hcs hcl
    rw [logJSON_client env members st hc hcl,
      renderSide_ok env st.cli_hdr _ _ _ _ cpv csw h1 h2 hp hs hcp hcs]
  · intro hc hp hs hcp hcs hsv
    rw [logJSON_server env members st hc hsv,
      renderSide_ok env st.srv_hdr _ _ _ _ spv ssw h3 h4 hp hs hcp hcs]
  · intro k hk1 hk2
    exact logJSON_other env _ st k hk1 hk2
  · intro hc
    exact logJSON_client_null env _ st hc
  · intro hs
    exact logJSON_server_null env _ st hs
  · intro p f header hp hap hst hh ht hssh
    have e1 : st.cli_hdr.software_version ≠ none := by simp [h2]
    have e2 : st.srv_hdr.software_version ≠ none := by simp [h4]
    have hcall := logger_emits_calls c env p f st header hp hap hst e1 e2 hh ht
    refine ⟨_, hcall, ?_, ?_⟩
    · rw [hssh]
      exact get_set_new_self _ _ _
    · intro k hk
      exact get_set_new_ne _ _ _ _ _ hk

/-- Witness of the amended C8 on the complete state, rendered into an empty object. -/
theorem JsonSshLogJSON_structural_copy_witness :
    json_object_get (JsonSshLogJSON envOk (Json.obj []) (completeState 0)).1 "client"
        = some (Json.obj [("proto_version", Json.str v20),
            ("software_version", Json.str libssh)]) ∧
      json_object_get (JsonSshLogJSON envOk (Json.obj []) (completeState 0)).1 "server"
        = some (Json.obj [("proto_version", Json.str v20),
            ("software_version", Json.str dropbear)]) ∧
      ∃ js, sinkCalls (JsonSshLogger exConsts envOk
            ⟨some (completeFlow exConsts 0), true⟩).trace
          = [(js, envOk.OutputJSONBuffer js)] ∧
        json_object_get js "ssh"
          = some (JsonSshLogJSON envOk (Json.obj []) (completeState 0)).1 ∧
        ∀ k, k ≠ "ssh" → json_object_get js k = json_object_get (Json.obj []) k :=
  ⟨(JsonSshLogJSON_structural_copy exConsts envOk [] (completeState 0) v20 libssh v20
      dropbear rfl rfl rfl rfl).1 rfl rfl rfl rfl rfl rfl,
    (JsonSshLogJSON_structural_copy exConsts envOk [] (completeState 0) v20 libssh v20
      dropbear rfl rfl rfl rfl).2.1 rfl rfl rfl rfl rfl rfl,
    (JsonSshLogJSON_structural_copy exConsts envOk [] (completeState 0) v20 libssh v20
      dropbear rfl rfl rfl rfl).2.2.2.2.2 ⟨some (completeFlow exConsts 0), true⟩
      (completeFlow exConsts 0) [] rfl rfl rfl rfl rfl rfl⟩

/-- C9 as stated fails: on a TCP packet of a complete, unlogged SSH flow the header is
created and the sink accepts everything, but `json_object()` in the logger returns `NULL`:
`JsonSshCondition` returns TRUE, `JsonSshLogger` hands no event to the sink and the flag
stays clear. -/
theorem no_emit_when_object_allocation_fails :
    envNoTjs.CreateJSONHeader ⟨some (completeFlow exConsts 0), true⟩ = some [] ∧
      envNoTjs.OutputJSONBuffer (Json.obj [("ssh", completeSsh)]) = true ∧
      (JsonSshCondition exConsts ⟨some (completeFlow exConsts 0), true⟩).ret = true ∧
      sinkCalls (JsonSshLogger exConsts envNoTjs
        ⟨some (completeFlow exConsts 0), true⟩).trace = [] ∧
      (JsonSshLogger exConsts envNoTjs ⟨some (completeFlow exConsts 0), true⟩).flow
        = some (completeFlow exConsts 0) ∧
      stateLogged exConsts (completeState 0).cli_hdr.flags = false := by
  refine ⟨rfl, rfl, ?_, ?_, ?_, by decide⟩ <;>
    simp [completeFlow, completeState, envNoTjs, envOk, exConsts,
      JsonSshCondition, JsonSshLogger, stateLogged, sinkCalls]

/-- C9 amended: for a TCP packet of a flow whose protocol is `ALPROTO_SSH`, whose state
has both banners set and `SSH_FLAG_STATE_LOGGED` clear, when the header is created, the
logger's `json_object()` returns an object and the sink accepts, `JsonSshCondition`
returns TRUE without a sink call, and `JsonSshLogger` then hands exactly one event to the
sink and leaves the flag set, every other bit of `cli_hdr.flags`, the strings and the
server header unchanged. -/
theorem emit_and_mark_when_complete (c : Consts) (env : Env) (p : Packet) (f : Flow)
    (st : SshState) (header : List (String × Json))
    (hmask : c.SSH_FLAG_STATE_LOGGED ≠ 0) (hp : p.flow = some f) (htcp : p.tcp = true)
    (hap : f.alproto = c.ALPROTO_SSH) (hst : f.alstate = some st)
    (h1 : st.cli_hdr.software_version ≠ none) (h2 : st.srv_hdr.software_version ≠ none)
    (hl : stateLogged c st.cli_hdr.flags = false)
    (hh : env.CreateJSONHeader p = some header)
    (ht : env.json_object_tjs = true)
    (hsink : ∀ js, env.OutputJSONBuffer js = true) :
    (JsonSshCondition c p).ret = true ∧
      sinkCalls (JsonSshCondition c p).trace = [] ∧
      (∃ js, sinkCalls (JsonSshLogger c env p).trace = [(js, true)]) ∧
      ∃ st1, (JsonSshLogger c env p).flow = some { f with alstate := some st1 } ∧
        stateLogged c st1.cli_hdr.flags = true ∧
        (∀ n, c.SSH_FLAG_STATE_LOGGED.testBit n = false →
          st1.cli_hdr.flags.testBit n = st.cli_hdr.flags.testBit n) ∧
        st1.cli_hdr.proto_version = st.cli_hdr.proto_version ∧
        st1.cli_hdr.software_version = st.cli_hdr.software_version ∧
        st1.srv_hdr = st.srv_hdr := by
  have hg : (JsonSshCondition c p).ret = true := by
    rw [JsonSshCondition_gate]
    exact ⟨f, st, hp, htcp, hap, hst, hl, h1, h2⟩
  obtain ⟨_, hflow⟩ := logger_emits c env p f st header hp hap hst h1 h2 hh ht
  have hcall := logger_emits_calls c env p f st header hp hap hst h1 h2 hh ht
  refine ⟨hg, sinkCalls_condition c p, ?_, markLogged c st, hflow,
    stateLogged_or_mask c _ hmask, ?_, rfl, rfl, rfl⟩
  · refine ⟨json_object_set_new (env.json_object_set_new_ok SetCall.ssh) (Json.obj header)
      "ssh" (some (JsonSshLogJSON env (Json.obj []) st).1), ?_⟩
    rw [hcall, hsink]
  · intro n hn
    exact testBit_or_mask _ _ n hn

/-- Witness of the amended C9 on the complete, unlogged flow. -/
theorem emit_and_mark_when_complete_witness :
    (JsonSshCondition exConsts ⟨some (completeFlow exConsts 0), true⟩).ret = true ∧
      sinkCalls (JsonSshCondition exConsts ⟨some (completeFlow exConsts 0), true⟩).trace
        = [] ∧
      (∃ js, sinkCalls (JsonSshLogger exConsts envOk
        ⟨some (completeFlow exConsts 0), true⟩).trace = [(js, true)]) ∧
      ∃ st1, (JsonSshLogger exConsts envOk ⟨some (completeFlow exConsts 0), true⟩).flow
          = some { completeFlow exConsts 0 with alstate := some st1 } ∧
        stateLogged exConsts st1.cli_hdr.flags = true ∧
        (∀ n, exConsts.SSH_FLAG_STATE_LOGGED.testBit n = false →
          st1.cli_hdr.flags.testBit n = (completeState 0).cli_hdr.flags.testBit n) ∧
        st1.cli_hdr.proto_version = (completeState 0).cli_hdr.proto_version ∧
        st1.cli_hdr.software_version = (completeState 0).cli_hdr.software_version ∧
        st1.srv_hdr = (completeState 0).srv_hdr :=
  emit_and_mark_when_complete exConsts envOk ⟨some (completeFlow exConsts 0), true⟩
    (completeFlow exConsts 0) (completeState 0) [] (by decide) rfl rfl rfl rfl (by decide)
    (by decide) (by decide) rfl rfl (fun _ => rfl)

end OutputJsonSsh
